import Mathlib

/-!
Shallow embedding of `actix_tera_page` (src/src/lib.rs): a middleware that
matches GET request paths against a Tera template registry and renders the
matched template, delegating to the downstream handler otherwise.

The async plumbing of actix is modelled functionally: the downstream service
is a function from requests to responses, the context builder a function from
requests to contexts, and Tera's fallible `render` returns an `Option`.
-/

/-- Rust `str::trim_end_matches('/')` with a char pattern: remove every
trailing occurrence of the char (src/src/lib.rs line 161 uses `'/'`). -/
def trimEndMatchesChar (c : Char) (s : String) : String :=
  String.mk ((s.toList.reverse.dropWhile (fun x => x = c)).reverse)

/-- Rust `str::trim_matches('/')` with a char pattern: remove every leading
and trailing occurrence of the char (src/src/lib.rs line 118). -/
def trimMatchesChar (c : Char) (s : String) : String :=
  String.mk (((s.toList.dropWhile (fun x => x = c)).reverse.dropWhile (fun x => x = c)).reverse)

/-- The Tera collaborator as the middleware sees it: the registered template
names (`get_template_names`, line 174) and the fallible render operation
(`tera.render`, line 188), with `none` standing for a Rust `Err`. -/
structure Tera (Ctx : Type) where
  templates : List String
  render : String → Ctx → Option String

/-- The parts of an actix `ServiceRequest` the middleware reads: the HTTP
method (line 147), the URL path (line 161) and the optional Tera instance
reachable through `app_data` (line 155). -/
structure ServiceRequest (Ctx : Type) where
  method : String
  path : String
  app_data : Option (Tera Ctx)

/-- Outcome of one middleware call: the downstream handler's response
returned verbatim, a panic, or a rendered HTTP response (status, body). -/
inductive CallOutcome (Resp : Type) where
  | forwarded : Resp → CallOutcome Resp
  | panicked : String → CallOutcome Resp
  | rendered : Nat → String → CallOutcome Resp
deriving DecidableEq

/-- The panic message of src/src/lib.rs line 158. -/
def teraPanicMsg : String :=
  "A Tera object must be registered as application data for TeraPageMiddlewear to work!"

/-- Model of the panic raised by `.unwrap()` on a failed render (line 188). -/
def renderUnwrapMsg : String :=
  "called Result::unwrap on an Err value"

/-- Candidate generation, src/src/lib.rs lines 163-170: two candidates for a
non-empty (trailing-trimmed) path, one for the empty path. -/
def candidateResolver ( template_prefix path : String) : List String :=
  if !path.isEmpty then
    [ template_prefix ++ path ++ ".html", template_prefix ++ path ++ "/index.html"]
  else
    [ template_prefix ++ "/index.html"]

/-- Match selection, src/src/lib.rs lines 175-180: iterate the candidates,
overwriting the accumulator on every hit, so the last registered candidate
wins. -/
def matchTemplate (candidates : List String) (templates : List String) : Option String :=
  candidates.foldl (fun matched c => if templates.contains c then some c else matched) none

/-- Prefix normalization performed once at construction,
src/src/lib.rs line 118: `self.template_prefix.trim_matches('/')`.
Returns the prefix stored in the `TeraPageMiddleware`. -/
def Transform.new_transform ( template_prefix : String) : String :=
  trimMatchesChar '/' template_prefix

/-- `TeraPageMiddleware::call`, src/src/lib.rs lines 146-199. The stored
(already normalized) prefix, the context builder and the wrapped downstream
service are the middleware's fields, passed here as explicit arguments. -/
def TeraPageMiddleware.call {Ctx Resp : Type} ( template_prefix : String)
    (context_builder : ServiceRequest Ctx → Ctx)
    (service : ServiceRequest Ctx → Resp)
    (req : ServiceRequest Ctx) : CallOutcome Resp :=
  if req.method ≠ "GET" then
    CallOutcome.forwarded (service req)
  else
    match req.app_data with
    | none => CallOutcome.panicked teraPanicMsg
    | some tera =>
      let path := trimEndMatchesChar '/' req.path
      let candidates := candidateResolver template_prefix path
      match matchTemplate candidates tera.templates with
      | some template =>
        match tera.render template (context_builder req) with
        | some body => CallOutcome.rendered 200 body
        | none => CallOutcome.panicked renderUnwrapMsg
      | none => CallOutcome.forwarded (service req)

/-! ## Spec-worded definitions (for refinement comparisons)

These follow the spec's wording of normalization, to be compared with the
definitions taken from the source. -/

/-- Strip every leading occurrence of the char, written by direct recursion
as the spec words it ("leading path separators stripped"). -/
def stripLeading (c : Char) : List Char → List Char
  | [] => []
  | x :: xs => if x = c then stripLeading c xs else x :: xs

/-- Strip every trailing occurrence of the char, written by direct recursion
as the spec words it ("trailing path separators stripped"). -/
def stripTrailing (c : Char) : List Char → List Char
  | [] => []
  | x :: xs =>
    match stripTrailing c xs with
    | [] => if x = c then [] else [x]
    | ys => x :: ys

/-- The spec's wording of the path normalization claimed in the spec's
resolver contract: both leading and trailing separators trimmed. -/
def specTrimBoth (s : String) : String :=
  String.mk (stripTrailing '/' (stripLeading '/' s.toList))

/-- The spec's wording of trailing-only path normalization. -/
def specTrimTrailing (s : String) : String :=
  String.mk (stripTrailing '/' s.toList)

/-- The candidate list the middleware builds for a raw request path (the
composition of lines 161 and 163-170 of src/src/lib.rs). -/
def requestCandidates ( template_prefix path : String) : List String :=
  candidateResolver template_prefix (trimEndMatchesChar '/' path)

/-- The candidate list as claim C7 words it: built from the path with both
leading and trailing separators removed. -/
def claimedCandidatesC7 ( template_prefix path : String) : List String :=
  candidateResolver template_prefix (specTrimBoth path)

/-! ## Helper lemmas about the trimming functions -/

theorem stripLeading_eq_dropWhile (c : Char) (l : List Char) :
    stripLeading c l = l.dropWhile (fun x => x = c) := by
  induction l with
  | nil => rfl
  | cons x xs ih =>
    by_cases h : x = c <;> simp [stripLeading, List.dropWhile, h, ih]

theorem stripTrailing_append_eq (c : Char) (l : List Char) :
    stripTrailing c (l ++ [c]) = stripTrailing c l := by
  induction l with
  | nil => simp [stripTrailing]
  | cons x xs ih =>
    show stripTrailing c (x :: (xs ++ [c])) = stripTrailing c (x :: xs)
    simp only [stripTrailing]
    rw [ih]

theorem stripTrailing_append_ne (c a : Char) (h : ¬ a = c) (l : List Char) :
    stripTrailing c (l ++ [a]) = l ++ [a] := by
  induction l with
  | nil => simp [stripTrailing, h]
  | cons x xs ih =>
    show stripTrailing c (x :: (xs ++ [a])) = x :: (xs ++ [a])
    simp only [stripTrailing]
    rw [ih]
    cases hxs : xs ++ [a] with
    | nil => simp at hxs
    | cons y ys => rfl

theorem reverse_dropWhile_reverse_eq_stripTrailing (c : Char) (l : List Char) :
    (l.reverse.dropWhile (fun x => x = c)).reverse = stripTrailing c l := by
  induction l using List.reverseRecOn with
  | nil => rfl
  | append_singleton as a ih =>
    by_cases h : a = c
    · subst h
      rw [stripTrailing_append_eq]
      simp only [List.reverse_append, List.reverse_cons, List.reverse_nil,
        List.nil_append, List.singleton_append, List.dropWhile]
      simpa using ih
    · rw [stripTrailing_append_ne c a h]
      simp [List.dropWhile, h]

theorem trimMatchesChar_eq_strip (c : Char) (s : String) :
    trimMatchesChar c s = String.mk (stripTrailing c (stripLeading c s.toList)) := by
  unfold trimMatchesChar
  rw [reverse_dropWhile_reverse_eq_stripTrailing, stripLeading_eq_dropWhile]

theorem trimEndMatchesChar_eq_strip (c : Char) (s : String) :
    trimEndMatchesChar c s = String.mk (stripTrailing c s.toList) := by
  unfold trimEndMatchesChar
  rw [reverse_dropWhile_reverse_eq_stripTrailing]

theorem stripLeading_head_ne (c : Char) (l : List Char) :
    ∀ x xs, stripLeading c l = x :: xs → ¬ x = c := by
  induction l with
  | nil => intro x xs h; exact absurd h (by simp [stripLeading])
  | cons y ys ih =>
    intro x xs h
    by_cases hy : y = c
    · exact ih x xs (by simpa [stripLeading, hy] using h)
    · simp only [stripLeading, if_neg hy] at h
      cases h
      exact hy

theorem stripTrailing_cons_head (c x : Char) (xs : List Char) :
    stripTrailing c (x :: xs) = [] ∨ ∃ ys, stripTrailing c (x :: xs) = x :: ys := by
  show (match stripTrailing c xs with
    | [] => if x = c then [] else [x]
    | ys => x :: ys) = [] ∨ ∃ ys, (match stripTrailing c xs with
    | [] => if x = c then [] else [x]
    | ys => x :: ys) = x :: ys
  cases stripTrailing c xs with
  | nil =>
    by_cases hx : x = c
    · left; simp [hx]
    · right; exact ⟨[], by simp [hx]⟩
  | cons a as => right; exact ⟨a :: as, rfl⟩

theorem stripLeading_stripTrailing_stripLeading (c : Char) (l : List Char) :
    stripLeading c (stripTrailing c (stripLeading c l)) =
      stripTrailing c (stripLeading c l) := by
  cases hm : stripLeading c l with
  | nil => rfl
  | cons x xs =>
    have hx : ¬ x = c := stripLeading_head_ne c l x xs hm
    rcases stripTrailing_cons_head c x xs with h | ⟨ys, h⟩
    · rw [h]; rfl
    · rw [h]; simp [stripLeading, hx]

theorem stripTrailing_idem (c : Char) (l : List Char) :
    stripTrailing c (stripTrailing c l) = stripTrailing c l := by
  rw [← reverse_dropWhile_reverse_eq_stripTrailing c (stripTrailing c l),
    ← reverse_dropWhile_reverse_eq_stripTrailing c l]
  simp [List.reverse_reverse, List.dropWhile_idempotent]

/-! ## Helper lemmas about the resolver and match selection -/

theorem candidateResolver_of_ne ( template_prefix p : String) (h : p ≠ "") :
    candidateResolver template_prefix p =
      [ template_prefix ++ p ++ ".html", template_prefix ++ p ++ "/index.html"] := by
  have hp : p.isEmpty = false := by
    cases he : p.isEmpty
    · rfl
    · exact absurd ((String.isEmpty_iff p).mp he) h
  simp [candidateResolver, hp]

theorem candidateResolver_of_empty ( template_prefix : String) :
    candidateResolver template_prefix "" = [ template_prefix ++ "/index.html"] := rfl

theorem foldl_pick_last {α : Type} (p : α → Bool) :
    ∀ (cs : List α) (acc : Option α),
      cs.foldl (fun matched c => if p c then some c else matched) acc =
        (cs.reverse.find? p).or acc
  | [], acc => by simp
  | c :: cs, acc => by
    rw [List.foldl_cons, foldl_pick_last p cs]
    simp only [List.reverse_cons, List.find?_append]
    cases hfind : cs.reverse.find? p with
    | some x => simp
    | none =>
      simp only [Option.or, List.find?]
      cases hp : p c <;> simp

theorem matchTemplate_eq_findRev (cs ts : List String) :
    matchTemplate cs ts = cs.reverse.find? (fun c => ts.contains c) := by
  unfold matchTemplate
  rw [foldl_pick_last]
  cases cs.reverse.find? (fun c => ts.contains c) <;> rfl

theorem matchTemplate_eq_none (cs ts : List String)
    (h : ∀ c ∈ cs, ts.contains c = false) : matchTemplate cs ts = none := by
  rw [matchTemplate_eq_findRev, List.find?_eq_none]
  intro x hx
  simpa using h x (List.mem_reverse.mp hx)

/-! ## Claims -/

/-- Claim C1: for every non-empty trimmed request path and every normalized
prefix, candidate generation produces exactly two candidate template
identifiers, in exactly this order: first the direct-file candidate
`pre+p+".html"`, then the directory-index candidate `pre+p+"/index.html"`. -/
theorem C1_two_candidates_in_order ( template_prefix p : String) (h : p ≠ "") :
    candidateResolver template_prefix p =
      [ template_prefix ++ p ++ ".html", template_prefix ++ p ++ "/index.html"] :=
  candidateResolver_of_ne template_prefix p h

theorem C1_two_candidates_in_order_witness :
    ("/about" : String) ≠ "" ∧
      candidateResolver "pages" "/about" = ["pages/about.html", "pages/about/index.html"] :=
  ⟨by decide, C1_two_candidates_in_order "pages" "/about" (by decide)⟩

/-- Claim C2: for the empty trimmed path (the site root) candidate generation
produces the single candidate `pre+"/index.html"`; in particular a GET
request to the root path under prefix "pages" with `pages/index.html`
registered is rendered from that template. -/
theorem C2_root_single_candidate :
    (∀ pre : String, candidateResolver pre "" = [pre ++ "/index.html"]) ∧
      TeraPageMiddleware.call "pages" (fun _ => ()) (fun _ => (0 : Nat))
        { method := "GET", path := "/",
          app_data := some { templates := ["pages/index.html"],
                             render := fun t _ => some ("rendered:" ++ t) } } =
        CallOutcome.rendered 200 "rendered:pages/index.html" := by
  constructor
  · intro pre
    exact candidateResolver_of_empty pre
  · rfl

/-- Claim C3: match selection scans candidates in order testing registry
membership and keeps the last registered candidate (equivalently, the first
match of the reversed list); with both candidates of a non-empty path
registered, the directory-index candidate wins. -/
theorem C3_last_match_wins :
    (∀ cs ts : List String,
      matchTemplate cs ts = cs.reverse.find? (fun c => ts.contains c)) ∧
    (∀ (ts : List String) ( template_prefix p : String), p ≠ "" →
      ts.contains ( template_prefix ++ p ++ ".html") = true →
      ts.contains ( template_prefix ++ p ++ "/index.html") = true →
      matchTemplate (candidateResolver template_prefix p) ts =
        some ( template_prefix ++ p ++ "/index.html")) := by
  refine ⟨matchTemplate_eq_findRev, ?_⟩
  intro ts template_prefix p hp h1 h2
  rw [candidateResolver_of_ne template_prefix p hp]
  simp only [matchTemplate, List.foldl_cons, List.foldl_nil, h1, h2, if_true]

theorem C3_last_match_wins_witness :
    matchTemplate (candidateResolver "pages" "/about")
        ["pages/about.html", "pages/about/index.html"] =
      some "pages/about/index.html" :=
  C3_last_match_wins.2 ["pages/about.html", "pages/about/index.html"] "pages" "/about"
    (by decide) (by decide) (by decide)

/-- Claim C4: every request whose method is not GET is forwarded to the
downstream handler and that handler's response is returned verbatim,
independently of the registry and without any resolution or lookup. -/
theorem C4_non_get_forwarded (Ctx Resp : Type) ( template_prefix : String)
    (context_builder : ServiceRequest Ctx → Ctx)
    (service : ServiceRequest Ctx → Resp)
    (req : ServiceRequest Ctx) (h : req.method ≠ "GET") :
    TeraPageMiddleware.call template_prefix context_builder service req =
      CallOutcome.forwarded (service req) := by
  unfold TeraPageMiddleware.call
  rw [if_pos h]

theorem C4_non_get_forwarded_witness :
    (("POST" : String) ≠ "GET") ∧
      TeraPageMiddleware.call "pages" (fun _ => ()) (fun _ => (7 : Nat))
        { method := "POST", path := "/about",
          app_data := some { templates := ["pages/about.html"],
                             render := fun t _ => some t } } =
        CallOutcome.forwarded 7 :=
  ⟨by decide,
    C4_non_get_forwarded Unit Nat "pages" (fun _ => ()) (fun _ => (7 : Nat))
      { method := "POST", path := "/about",
        app_data := some { templates := ["pages/about.html"],
                           render := fun t _ => some t } }
      (by decide)⟩

/-- Claim C5: a GET request none of whose candidate template identifiers is
registered is delegated to the downstream handler and the downstream
response is returned unchanged. -/
theorem C5_no_match_passthrough (Ctx Resp : Type) ( template_prefix : String)
    (context_builder : ServiceRequest Ctx → Ctx)
    (service : ServiceRequest Ctx → Resp)
    (req : ServiceRequest Ctx) (tera : Tera Ctx)
    (hm : req.method = "GET") (ht : req.app_data = some tera)
    (hnone : ∀ c ∈ candidateResolver template_prefix (trimEndMatchesChar '/' req.path),
      tera.templates.contains c = false) :
    TeraPageMiddleware.call template_prefix context_builder service req =
      CallOutcome.forwarded (service req) := by
  unfold TeraPageMiddleware.call
  rw [if_neg (by simp [hm]), ht]
  simp only [matchTemplate_eq_none _ _ hnone]

theorem C5_no_match_passthrough_witness :
    TeraPageMiddleware.call "pages" (fun _ => ()) (fun _ => (3 : Nat))
      { method := "GET", path := "/nonexistent",
        app_data := some { templates := ["pages/about.html"],
                           render := fun t _ => some t } } =
      CallOutcome.forwarded 3 :=
  C5_no_match_passthrough Unit Nat "pages" (fun _ => ()) (fun _ => (3 : Nat))
    { method := "GET", path := "/nonexistent",
      app_data := some { templates := ["pages/about.html"],
                         render := fun t _ => some t } }
    { templates := ["pages/about.html"], render := fun t _ => some t }
    rfl rfl (by decide)

/-- Claim C6: a GET request matching a registered template is answered by
invoking the context builder on the request, rendering the matched template
with the resulting context, and returning a 200 response whose body is the
rendered output; a failed render is fatal to the request, and the downstream
handler is never invoked once a match exists. -/
theorem C6_match_renders (Ctx Resp : Type) ( template_prefix : String)
    (context_builder : ServiceRequest Ctx → Ctx)
    (service : ServiceRequest Ctx → Resp)
    (req : ServiceRequest Ctx) (tera : Tera Ctx) (tmpl : String)
    (hm : req.method = "GET") (ht : req.app_data = some tera)
    (hmatch : matchTemplate
      (candidateResolver template_prefix (trimEndMatchesChar '/' req.path))
      tera.templates = some tmpl) :
    (∀ body, tera.render tmpl (context_builder req) = some body →
      TeraPageMiddleware.call template_prefix context_builder service req =
        CallOutcome.rendered 200 body) ∧
    (tera.render tmpl (context_builder req) = none →
      TeraPageMiddleware.call template_prefix context_builder service req =
        CallOutcome.panicked renderUnwrapMsg) ∧
    (∀ r, TeraPageMiddleware.call template_prefix context_builder service req ≠
      CallOutcome.forwarded r) := by
  refine ⟨?_, ?_, ?_⟩
  · intro body hr
    simp [TeraPageMiddleware.call, hm, ht, hmatch, hr]
  · intro hr
    simp [TeraPageMiddleware.call, hm, ht, hmatch, hr]
  · intro r
    cases hr : tera.render tmpl (context_builder req) with
    | none => simp [TeraPageMiddleware.call, hm, ht, hmatch, hr]
    | some body => simp [TeraPageMiddleware.call, hm, ht, hmatch, hr]

theorem C6_match_renders_witness :
    TeraPageMiddleware.call "pages" (fun _ => ()) (fun _ => (0 : Nat))
      { method := "GET", path := "/about",
        app_data := some { templates := ["pages/about.html"],
                           render := fun t _ => some ("R:" ++ t) } } =
      CallOutcome.rendered 200 "R:pages/about.html" :=
  (C6_match_renders Unit Nat "pages" (fun _ => ()) (fun _ => (0 : Nat))
    { method := "GET", path := "/about",
      app_data := some { templates := ["pages/about.html"],
                         render := fun t _ => some ("R:" ++ t) } }
    { templates := ["pages/about.html"], render := fun t _ => some ("R:" ++ t) }
    "pages/about.html" rfl rfl (by decide)).1 "R:pages/about.html" rfl

/-- Claim C7 is false on the code: the counterexample path "/about" keeps its
leading '/', so the candidates differ from those built from the both-ends
trimmed path. -/
theorem C7_counterexample :
    requestCandidates "pages" "/about" ≠ claimedCandidatesC7 "pages" "/about" := by
  decide

/-- Claim C7 (amended): the request path handed to candidate generation is
normalized by trimming trailing '/' characters only; leading separators are
preserved. -/
theorem C7_amended_trailing_only ( template_prefix path : String) :
    requestCandidates template_prefix path =
      candidateResolver template_prefix (specTrimTrailing path) := by
  unfold requestCandidates
  rw [trimEndMatchesChar_eq_strip]
  rfl

/-- Claim C8: a GET request with no Tera instance reachable from the
request's application data panics (fatal failure), rather than producing a
per-request error or delegating downstream. -/
theorem C8_missing_tera_panics (Ctx Resp : Type) ( template_prefix : String)
    (context_builder : ServiceRequest Ctx → Ctx)
    (service : ServiceRequest Ctx → Resp)
    (req : ServiceRequest Ctx)
    (hm : req.method = "GET") (ht : req.app_data = none) :
    TeraPageMiddleware.call template_prefix context_builder service req =
      CallOutcome.panicked teraPanicMsg := by
  unfold TeraPageMiddleware.call
  rw [if_neg (by simp [hm]), ht]

theorem C8_missing_tera_panics_witness :
    TeraPageMiddleware.call "pages" (fun _ => ()) (fun _ => (0 : Nat))
      { method := "GET", path := "/about", app_data := none } =
      CallOutcome.panicked teraPanicMsg :=
  C8_missing_tera_panics Unit Nat "pages" (fun _ => ()) (fun _ => (0 : Nat))
    { method := "GET", path := "/about", app_data := none } rfl rfl

/-- Claim C9: the prefix stored at construction is the input with leading and
trailing '/' stripped (the spec-worded normalization), and it is already in
normal form: normalizing the stored prefix again changes nothing, so a single
construction-time normalization fixes the prefix for every request. -/
theorem C9_construction_normalization ( template_prefix : String) :
    Transform.new_transform template_prefix = specTrimBoth template_prefix ∧
    Transform.new_transform (Transform.new_transform template_prefix) =
      Transform.new_transform template_prefix := by
  have he : Transform.new_transform template_prefix = specTrimBoth template_prefix := by
    unfold Transform.new_transform specTrimBoth
    exact trimMatchesChar_eq_strip '/' template_prefix
  refine ⟨he, ?_⟩
  rw [he]
  unfold Transform.new_transform
  rw [trimMatchesChar_eq_strip]
  show String.mk (stripTrailing '/' (stripLeading '/'
      (stripTrailing '/' (stripLeading '/' template_prefix.toList)))) =
    String.mk (stripTrailing '/' (stripLeading '/' template_prefix.toList))
  rw [stripLeading_stripTrailing_stripLeading, stripTrailing_idem]

/-- Claim C10: a non-GET request can never reach a panic: in particular the
missing-Tera check is unreachable for non-GET methods, whatever the
application data holds. -/
theorem C10_non_get_never_panics (Ctx Resp : Type) ( template_prefix : String)
    (context_builder : ServiceRequest Ctx → Ctx)
    (service : ServiceRequest Ctx → Resp)
    (req : ServiceRequest Ctx) (h : req.method ≠ "GET") :
    ∀ msg, TeraPageMiddleware.call template_prefix context_builder service req ≠
      CallOutcome.panicked msg := by
  intro msg hEq
  unfold TeraPageMiddleware.call at hEq
  rw [if_pos h] at hEq
  exact CallOutcome.noConfusion hEq

theorem C10_non_get_never_panics_witness :
    (("POST" : String) ≠ "GET") ∧
      TeraPageMiddleware.call "pages" (fun _ => ()) (fun _ => (0 : Nat))
        { method := "POST", path := "/about", app_data := none } ≠
        CallOutcome.panicked teraPanicMsg :=
  ⟨by decide,
    C10_non_get_never_panics Unit Nat "pages" (fun _ => ()) (fun _ => (0 : Nat))
      { method := "POST", path := "/about", app_data := none }
      (by decide) teraPanicMsg⟩
